import Mathlib

/-!
Verification of the database extension & migration coordinator
(src/server/src/infra/repositories/database.repository.ts and the domain
declarations in src/unnamed/part_001), via a shallow embedding.

Database effects are modelled as explicit traces of issued statements
(`DbOp`), and every read the coordinator performs (installed-version
lookup, index-status query, REINDEX outcomes) is an explicit oracle
parameter, so each function is a pure Lean function from its inputs and
oracle answers to the trace it issues and its `Except` result.
-/

/-- The DatabaseExtension enumeration (src/unnamed/part_001, lines 3-8). -/
inductive DatabaseExtension
  | cube
  | earthdistance
  | vector
  | vectors
deriving DecidableEq

/-- The TS enum member's string value: `CUBE = 'cube'`, `EARTH_DISTANCE = 'earthdistance'`,
`VECTOR = 'vector'`, `VECTORS = 'vectors'` (src/unnamed/part_001). These strings are the
enumeration keys used to index `extName` and are interpolated into SQL. -/
def DatabaseExtension.key : DatabaseExtension → String
  | .cube => "cube"
  | .earthdistance => "earthdistance"
  | .vector => "vector"
  | .vectors => "vectors"

/-- The canonical on-disk/package names (src/unnamed/part_001, lines 16-21):
`{cube: 'cube', earthdistance: 'earthdistance', vector: 'pgvector', vectors: 'pgvecto.rs'}`. -/
def extName : DatabaseExtension → String
  | .cube => "cube"
  | .earthdistance => "earthdistance"
  | .vector => "pgvector"
  | .vectors => "pgvecto.rs"

/-- The DatabaseLock enumeration (src/unnamed/part_001, lines 10-14), numeric values
used as advisory-lock keys. -/
inductive DatabaseLock
  | geodataImport
  | storageTemplateMigration
  | clipDimSize
deriving DecidableEq

/-- The numeric enum value: GeodataImport = 100, StorageTemplateMigration = 420,
CLIPDimSize = 512. -/
def DatabaseLock.value : DatabaseLock → Nat
  | .geodataImport => 100
  | .storageTemplateMigration => 420
  | .clipDimSize => 512

/-- The reverse enum mapping `DatabaseLock[lock]`, the member name string used to key
the in-process async mutex. -/
def DatabaseLock.lockName : DatabaseLock → String
  | .geodataImport => "GeodataImport"
  | .storageTemplateMigration => "StorageTemplateMigration"
  | .clipDimSize => "CLIPDimSize"

/-- Modelled from the spec: the VectorIndex enumeration is referenced by the source but
its declaration is not under src/; the spec calls its members the CLIP embedding index
and the face embedding index. -/
inductive VectorIndex
  | clip
  | face
deriving DecidableEq

/-- Modelled from the spec: the index identifier string interpolated into REINDEX DDL;
the concrete identifiers are not in the sources, only that the two are distinct. -/
def VectorIndex.idxName : VectorIndex → String
  | .clip => "clip_index"
  | .face => "face_index"

/-- Modelled from the spec: Version is `{major, minor, patch}` non-negative integers
(spec section 3); declared in domain.constant.ts, which is not under src/. -/
structure Version where
  major : Nat
  minor : Nat
  patch : Nat
deriving DecidableEq

/-- Modelled from the spec: `toString()` renders canonical "major.minor.patch"
(suffix omitted). -/
def Version.render (v : Version) : String :=
  Nat.repr v.major ++ "." ++ Nat.repr v.minor ++ "." ++ Nat.repr v.patch

/-- Modelled from the spec: the granularity of a version delta (none / patch / minor /
major); `VersionType` is declared in domain.constant.ts, not under src/. The numeric
order EQUAL < PATCH < MINOR < MAJOR is what `>= VersionType.MINOR` in the source uses. -/
inductive VersionType
  | equal
  | patch
  | minor
  | major
deriving DecidableEq

/-- Numeric value of a VersionType, giving the order EQUAL < PATCH < MINOR < MAJOR. -/
def VersionType.toNat : VersionType → Nat
  | .equal => 0
  | .patch => 1
  | .minor => 2
  | .major => 3

/-- Modelled from the spec: comparison is lexicographic over (major, minor, patch);
`isOlderThan` reports the granularity of the first differing component when the left
version is older, and EQUAL otherwise. -/
def Version.isOlderThan (a b : Version) : VersionType :=
  if a.major < b.major then .major
  else if a.major = b.major ∧ a.minor < b.minor then .minor
  else if a.major = b.major ∧ a.minor = b.minor ∧ a.patch < b.patch then .patch
  else .equal

/-- Modelled from the spec: `isEqual` is equality of the (major, minor, patch) triple. -/
def Version.isEqual (a b : Version) : Bool :=
  a.major == b.major && a.minor == b.minor && a.patch == b.patch

/-- Splits a character list on a separator character; n separators yield n+1 chunks. -/
def splitOnChar (c : Char) : List Char → List (List Char)
  | [] => [[]]
  | x :: xs =>
    if x = c then [] :: splitOnChar c xs
    else
      match splitOnChar c xs with
      | [] => [[x]]
      | y :: ys => (x :: y) :: ys

/-- Reads a non-empty all-digit character list as a decimal natural number. -/
def digitsToNat (cs : List Char) : Option Nat :=
  if cs.isEmpty then none
  else if cs.all Char.isDigit then
    some (cs.foldl (fun n c => 10 * n + (c.toNat - 48)) 0)
  else none

/-- Modelled from the spec: `parse(text)` accepts "uint.uint.uint" optionally followed
by a dash-suffix that is ignored for ordering, and fails otherwise. -/
def Version.fromString (s : String) : Option Version :=
  let chars := s.toList
  let core := (splitOnChar (Char.ofNat 45) chars).headD chars
  match splitOnChar (Char.ofNat 46) core with
  | [a, b, c] =>
    match digitsToNat a, digitsToNat b, digitsToNat c with
    | some ma, some mb, some mc => some ⟨ma, mb, mc⟩
    | _, _, _ => none
  | _ => none

/-- Errors surfaced by the coordinator: the not-installed error thrown by
updateVectorExtension, generic SQL query errors (carrying the message the source
inspects), and the invalid-version-format error thrown by Version.fromString. -/
inductive DbError
  | notInstalled (extensionName : String)
  | sqlError (message : String)
  | invalidVersionFormat (text : String)
deriving DecidableEq

deriving instance DecidableEq for Except

/-- The message text of an error, as `err.message` in the source. -/
def DbError.message : DbError → String
  | .notInstalled n => n ++ " extension is not installed"
  | .sqlError m => m
  | .invalidVersionFormat t => "Invalid version format: " ++ t

/-- Whether the first list is an initial segment of the second. -/
def leadsWith : List Char → List Char → Bool
  | [], _ => true
  | _ :: _, [] => false
  | p :: ps, x :: xs => p == x && leadsWith ps xs

/-- Whether the first list occurs as a contiguous run inside the second. -/
def occursIn (pat : List Char) : List Char → Bool
  | [] => pat.isEmpty
  | x :: xs => leadsWith pat (x :: xs) || occursIn pat xs

/-- Whether `pat` occurs as a substring of `s`, as `String.prototype.includes`. -/
def containsSub (s pat : String) : Bool :=
  occursIn pat.toList s.toList

/-- A plain SQL statement: its text plus bound parameters. -/
structure SqlStmt where
  text : String
  params : List String
deriving DecidableEq

/-- A database effect in a trace: a plain statement, or a transaction grouping the
statements issued inside a manager.transaction block (in the source a transaction
body only issues plain statements). Reads whose results feed the control flow are
modelled as oracle inputs, not trace items. -/
inductive DbOp
  | stmt (s : SqlStmt)
  | transaction (ops : List SqlStmt)
deriving DecidableEq

/-- Shorthand for a plain statement trace item. -/
def DbOp.q (text : String) (params : List String) : DbOp :=
  .stmt ⟨text, params⟩

/-- The result record of updateVectorExtension. -/
structure VectorUpdateResult where
  restartRequired : Bool
deriving DecidableEq

/-- Embeds getExtensionVersion (database.repository.ts lines 27-40). `queryResult` is
the optional extversion string returned by the pg_extension lookup; absent means not
installed. A version parsing equal to 0.1.1 is remapped to 0.1.11. -/
def getExtensionVersion (queryResult : Option String) : Except DbError (Option Version) :=
  match queryResult with
  | none => .ok none
  | some extVersion =>
    match Version.fromString extVersion with
    | none => .error (.invalidVersionFormat extVersion)
    | some version =>
      if version.isEqual ⟨0, 1, 1⟩ then .ok (some ⟨0, 1, 11⟩) else .ok (some version)

/-- Embeds getAvailableExtensionVersion (database.repository.ts lines 42-52).
`queryResult` is the optional highest not-installed version string; the parsed version
is returned as-is, with no remap. -/
def getAvailableExtensionVersion (queryResult : Option String) :
    Except DbError (Option Version) :=
  match queryResult with
  | none => .ok none
  | some v =>
    match Version.fromString v with
    | none => .error (.invalidVersionFormat v)
    | some version => .ok (some version)

/-- The upgrade DDL issued by updateVectorExtension (database.repository.ts line 90):
a template literal that interpolates the extension's enum value and, when a target
version is given, appends " TO '<version>-alpha.2'" — note the "-alpha.2" text the
source appends after the rendered version. -/
def upgradeDdl (extension : DatabaseExtension) (version : Option Version) : DbOp :=
  .q ("ALTER EXTENSION " ++ extension.key ++ " UPDATE" ++
    (match version with
     | some v => " TO \x27" ++ v.render ++ "-alpha.2\x27"
     | none => "")) []

/-- Embeds updateVectorsSchema (database.repository.ts lines 159-172): the five-step
pgvecto.rs schema-relocation workaround. -/
def updateVectorsSchema (curVersion : Version) : List DbOp :=
  [ .q "CREATE SCHEMA IF NOT EXISTS vectors" [],
    .q "UPDATE pg_catalog.pg_extension SET extversion = $1 WHERE extname = $2"
      [curVersion.render, DatabaseExtension.vectors.key],
    .q "UPDATE pg_catalog.pg_extension SET extrelocatable = true WHERE extname = $1"
      [DatabaseExtension.vectors.key],
    .q "ALTER EXTENSION vectors SET SCHEMA vectors" [],
    .q "UPDATE pg_catalog.pg_extension SET extrelocatable = false WHERE extname = $1"
      [DatabaseExtension.vectors.key] ]

/-- The REINDEX statement for an index. -/
def reindexStmt (index : VectorIndex) : DbOp :=
  .q ("REINDEX INDEX " ++ index.idxName) []

/-- The table whose embedding column the recovery path rewrites
(database.repository.ts line 114). -/
def recoveryTable (index : VectorIndex) : String :=
  if index = VectorIndex.clip then "smart_search" else "asset_faces"

/-- The statements the reindex recovery path issues inside one transaction
(database.repository.ts lines 115-119): widen the embedding column to real[],
restore it to vector, then retry the REINDEX. -/
def reindexRecoveryOps (index : VectorIndex) : List SqlStmt :=
  [ ⟨"ALTER TABLE " ++ recoveryTable index ++ " ALTER COLUMN embedding SET DATA TYPE real[]", []⟩,
    ⟨"ALTER TABLE " ++ recoveryTable index ++ " ALTER COLUMN embedding SET DATA TYPE vector", []⟩,
    ⟨"REINDEX INDEX " ++ index.idxName, []⟩ ]

/-- Embeds reindex (database.repository.ts lines 108-124). `vectorExt` is the
module-level configured extension; `first` is the outcome of the direct REINDEX
attempt and `retry` the outcome of the transactional recovery (whose error, when the
retry also fails, is what the rejected transaction propagates). Returns the issued
trace and the call's result. -/
def reindex (vectorExt : DatabaseExtension) (index : VectorIndex)
    (first retry : Except DbError Unit) : List DbOp × Except DbError Unit :=
  match first with
  | .ok _ => ([reindexStmt index], .ok ())
  | .error e =>
    if vectorExt = DatabaseExtension.vectors then
      ([reindexStmt index, .transaction (reindexRecoveryOps index)], retry)
    else
      ([reindexStmt index], .error e)

/-- The minor-or-major classification computed at database.repository.ts line 81:
`version && curVersion.isOlderThan(version) >= VersionType.MINOR`; with no target
version the conjunction is falsy. -/
def minorOrMajorDelta (curVersion : Version) (version : Option Version) : Bool :=
  match version with
  | none => false
  | some v => decide (VersionType.minor.toNat ≤ (curVersion.isOlderThan v).toNat)

/-- Embeds updateVectorExtension (database.repository.ts lines 75-106).
`installedResult` is the pg_extension lookup feeding getExtensionVersion; the four
Except arguments are the REINDEX oracles threaded to the two reindex calls. The source
control flow: fail if not installed; run the schema workaround when minor-or-major and
pgvecto.rs; issue the upgrade DDL; return early when not minor-or-major; else run the
pgvecto.rs repair procedure (restartRequired true) or reindex CLIP then FACE
(restartRequired false), aborting on the first reindex failure. -/
def updateVectorExtension (vectorExt extension : DatabaseExtension)
    (version : Option Version) (installedResult : Option String)
    (clipFirst clipRetry faceFirst faceRetry : Except DbError Unit) :
    List DbOp × Except DbError VectorUpdateResult :=
  match getExtensionVersion installedResult with
  | .error e => ([], .error e)
  | .ok none => ([], .error (.notInstalled (extName extension)))
  | .ok (some curVersion) =>
    if minorOrMajorDelta curVersion version = false then
      ([upgradeDdl extension version], .ok ⟨false⟩)
    else if extension = DatabaseExtension.vectors then
      (updateVectorsSchema curVersion ++
        [upgradeDdl extension version, .q "SELECT pgvectors_upgrade()" []],
       .ok ⟨true⟩)
    else
      let clip := reindex vectorExt VectorIndex.clip clipFirst clipRetry
      match clip.2 with
      | .error e => ([upgradeDdl extension version] ++ clip.1, .error e)
      | .ok _ =>
        let face := reindex vectorExt VectorIndex.face faceFirst faceRetry
        ([upgradeDdl extension version] ++ clip.1 ++ face.1,
         face.2.map fun _ => ⟨false⟩)

/-- Embeds shouldReindex (database.repository.ts lines 126-146). `queryOutcome` is the
outcome of the pg_vector_index_stat status query: the optional idx_status of the first
row, or the raised error. -/
def shouldReindex (vectorExt : DatabaseExtension)
    (queryOutcome : Except DbError (Option String)) : Except DbError Bool :=
  if vectorExt ≠ DatabaseExtension.vectors then .ok false
  else
    match queryOutcome with
    | .ok status => .ok (decide (status = some "UPGRADE"))
    | .error e =>
      if containsSub e.message "index is not existing" then .ok true
      else .error e

/-- An event in the lock-manager trace: in-process mutex operations keyed by the lock
name, creation/release of the dedicated connection (query runner), the advisory
lock/unlock queries keyed by the lock's numeric value, and the protected operation
running. -/
inductive LockEvent
  | mutexAcquire (name : String)
  | connectionCreate
  | dbLockAcquire (key : Nat)
  | operationRun
  | dbLockRelease (key : Nat)
  | connectionRelease
  | mutexRelease (name : String)
deriving DecidableEq

/-- A lock-manager computation: the events it performs, and its result or the error it
throws. -/
def LockM (α : Type) : Type :=
  List LockEvent × Except DbError α

/-- Sequencing: if the first computation throws, the continuation does not run. -/
def LockM.andThen {α β : Type} (m : LockM α) (f : α → LockM β) : LockM β :=
  match m with
  | (t, .error e) => (t, .error e)
  | (t, .ok a) => (t ++ (f a).1, (f a).2)

/-- JS try/finally semantics: the finalizer always runs; if the finalizer itself
throws, its error supersedes the body's outcome, otherwise the body's outcome stands. -/
def LockM.tryFinally {α : Type} (body : LockM α) (fin : LockM Unit) : LockM α :=
  (body.1 ++ fin.1,
   match fin.2 with
   | .error e => .error e
   | .ok _ => body.2)

/-- Embeds acquireLock (database.repository.ts lines 205-207): the
pg_advisory_lock($1) query on the dedicated query runner; `outcome` is whether the
query succeeds. -/
def acquireLock (lock : DatabaseLock) (outcome : Except DbError Unit) : LockM Unit :=
  ([LockEvent.dbLockAcquire lock.value], outcome)

/-- Embeds releaseLock (database.repository.ts lines 209-211): the
pg_advisory_unlock($1) query on the dedicated query runner. -/
def releaseLock (lock : DatabaseLock) (outcome : Except DbError Unit) : LockM Unit :=
  ([LockEvent.dbLockRelease lock.value], outcome)

/-- The queryRunner.release() call freeing the dedicated connection. -/
def connectionReleaseStep (outcome : Except DbError Unit) : LockM Unit :=
  ([LockEvent.connectionRelease], outcome)

/-- Embeds withLock (database.repository.ts lines 178-195). The async-lock library
acquires the in-process mutex keyed by the lock's name, runs the body, and releases
the mutex when the body settles (on resolve or reject alike), re-throwing the body's
error. The body creates the dedicated query runner, then inside try/finally acquires
the advisory lock and runs the callback, with a finalizer that releases the advisory
lock and — in a nested finally — the dedicated connection. `callback` is the outcome
of the protected operation; the other Except parameters are the outcomes of the
advisory lock/unlock and connection-release calls. -/
def withLock {α : Type} (lock : DatabaseLock) (acquireOutcome : Except DbError Unit)
    (callback : Except DbError α)
    (releaseOutcome connReleaseOutcome : Except DbError Unit) : LockM α :=
  let body : LockM α :=
    LockM.andThen (([LockEvent.connectionCreate], Except.ok ()) : LockM Unit) fun _ =>
      LockM.tryFinally
        (LockM.andThen (acquireLock lock acquireOutcome) fun _ =>
          (([LockEvent.operationRun], callback) : LockM α))
        (LockM.tryFinally (releaseLock lock releaseOutcome)
          (connectionReleaseStep connReleaseOutcome))
  ([LockEvent.mutexAcquire lock.lockName] ++ body.1 ++ [LockEvent.mutexRelease lock.lockName],
   body.2)

/-- Evaluation lemma: shouldReindex under pgvecto.rs on a successful status query
returns the raw comparison of the first row's idx_status with "UPGRADE". -/
theorem shouldReindex_vectors_ok (s : Option String) :
    shouldReindex DatabaseExtension.vectors (.ok s) = .ok (decide (s = some "UPGRADE")) :=
  rfl

/-- Evaluation lemma: shouldReindex under pgvecto.rs on a failed status query returns
true when the message carries the not-existing signature and re-throws otherwise. -/
theorem shouldReindex_vectors_error (e : DbError) :
    shouldReindex DatabaseExtension.vectors (.error e) =
      if containsSub e.message "index is not existing" then .ok true else .error e :=
  rfl

/-- C1: the claim says updateVectorExtension renders the provided target version
verbatim in the ALTER EXTENSION ... UPDATE TO clause with no extra text appended; the
code instead appends "-alpha.2" after the rendered version. At installed pgvector
0.5.0 with target 0.7.0 the issued DDL is ALTER EXTENSION vector UPDATE TO
'0.7.0-alpha.2', and no statement with the verbatim target '0.7.0' appears in the
trace. -/
theorem updateVectorExtension_appends_alpha_suffix :
    updateVectorExtension DatabaseExtension.vector DatabaseExtension.vector
        (some ⟨0, 7, 0⟩) (some "0.5.0") (.ok ()) (.ok ()) (.ok ()) (.ok ()) =
      ([DbOp.q "ALTER EXTENSION vector UPDATE TO \x270.7.0-alpha.2\x27" [],
        DbOp.q "REINDEX INDEX clip_index" [],
        DbOp.q "REINDEX INDEX face_index" []], .ok ⟨false⟩) ∧
    DbOp.q "ALTER EXTENSION vector UPDATE TO \x270.7.0\x27" [] ∉
      (updateVectorExtension DatabaseExtension.vector DatabaseExtension.vector
        (some ⟨0, 7, 0⟩) (some "0.5.0") (.ok ()) (.ok ()) (.ok ()) (.ok ())).1 := by
  refine ⟨by decide, by decide⟩

/-- C2: withLock acquires the in-process mutex keyed by the lock's name first, then
creates the dedicated connection and takes the database advisory lock on it, runs the
operation, and releases in exact reverse order — advisory lock, dedicated connection,
in-process mutex — on every outcome of the operation, whose result or error is
propagated unchanged. -/
theorem withLock_acquire_release_order {α : Type} (lock : DatabaseLock)
    (callback : Except DbError α) :
    withLock lock (.ok ()) callback (.ok ()) (.ok ()) =
      ([LockEvent.mutexAcquire lock.lockName, LockEvent.connectionCreate,
        LockEvent.dbLockAcquire lock.value, LockEvent.operationRun,
        LockEvent.dbLockRelease lock.value, LockEvent.connectionRelease,
        LockEvent.mutexRelease lock.lockName], callback) :=
  rfl

/-- C3: for a pgvecto.rs upgrade whose delta is minor-or-major, updateVectorExtension
issues the schema-relocation workaround (create schema, rewrite catalog version, set
relocatable true, move the extension, restore relocatable false) before the upgrade
DDL, then the post-upgrade repair procedure, and returns restartRequired = true. -/
theorem updateVectorExtension_vectors_minor_or_major
    (vectorExt : DatabaseExtension) (installedResult : Option String)
    (cur v : Version) (cf cr ff fr : Except DbError Unit)
    (h : getExtensionVersion installedResult = .ok (some cur))
    (hm : minorOrMajorDelta cur (some v) = true) :
    updateVectorExtension vectorExt DatabaseExtension.vectors (some v) installedResult
        cf cr ff fr =
      ([DbOp.q "CREATE SCHEMA IF NOT EXISTS vectors" [],
        DbOp.q "UPDATE pg_catalog.pg_extension SET extversion = $1 WHERE extname = $2"
          [cur.render, "vectors"],
        DbOp.q "UPDATE pg_catalog.pg_extension SET extrelocatable = true WHERE extname = $1"
          ["vectors"],
        DbOp.q "ALTER EXTENSION vectors SET SCHEMA vectors" [],
        DbOp.q "UPDATE pg_catalog.pg_extension SET extrelocatable = false WHERE extname = $1"
          ["vectors"],
        upgradeDdl DatabaseExtension.vectors (some v),
        DbOp.q "SELECT pgvectors_upgrade()" []], .ok ⟨true⟩) := by
  unfold updateVectorExtension
  rw [h]
  simp [hm, updateVectorsSchema, DatabaseExtension.key]

/-- Witness for C3 at the spec scenario: installed pgvecto.rs 0.2.0, target 0.3.0. -/
theorem updateVectorExtension_vectors_minor_or_major_witness :
    updateVectorExtension DatabaseExtension.vectors DatabaseExtension.vectors
        (some ⟨0, 3, 0⟩) (some "0.2.0") (.ok ()) (.ok ()) (.ok ()) (.ok ()) =
      ([DbOp.q "CREATE SCHEMA IF NOT EXISTS vectors" [],
        DbOp.q "UPDATE pg_catalog.pg_extension SET extversion = $1 WHERE extname = $2"
          [Version.render ⟨0, 2, 0⟩, "vectors"],
        DbOp.q "UPDATE pg_catalog.pg_extension SET extrelocatable = true WHERE extname = $1"
          ["vectors"],
        DbOp.q "ALTER EXTENSION vectors SET SCHEMA vectors" [],
        DbOp.q "UPDATE pg_catalog.pg_extension SET extrelocatable = false WHERE extname = $1"
          ["vectors"],
        upgradeDdl DatabaseExtension.vectors (some ⟨0, 3, 0⟩),
        DbOp.q "SELECT pgvectors_upgrade()" []], .ok ⟨true⟩) :=
  updateVectorExtension_vectors_minor_or_major DatabaseExtension.vectors (some "0.2.0")
    ⟨0, 2, 0⟩ ⟨0, 3, 0⟩ (.ok ()) (.ok ()) (.ok ()) (.ok ()) (by decide) (by decide)

/-- C4: when the version delta is not minor-or-major, updateVectorExtension issues
only the upgrade DDL and returns restartRequired = false with no workaround, repair
procedure, or reindex; and for a pgvector upgrade whose delta is minor-or-major (with
the two direct rebuilds succeeding) it reindexes the CLIP index then the face index
and returns restartRequired = false. -/
theorem updateVectorExtension_non_minor_and_pgvector_paths
    (vectorExt extension : DatabaseExtension) (version : Option Version)
    (installedResult : Option String) (cur : Version)
    (cf cr ff fr : Except DbError Unit)
    (h : getExtensionVersion installedResult = .ok (some cur)) :
    (minorOrMajorDelta cur version = false →
      updateVectorExtension vectorExt extension version installedResult cf cr ff fr =
        ([upgradeDdl extension version], .ok ⟨false⟩)) ∧
    (minorOrMajorDelta cur version = true → extension = DatabaseExtension.vector →
      cf = .ok () → ff = .ok () →
      updateVectorExtension vectorExt extension version installedResult cf cr ff fr =
        ([upgradeDdl extension version, reindexStmt VectorIndex.clip,
          reindexStmt VectorIndex.face], .ok ⟨false⟩)) := by
  constructor
  · intro hm
    unfold updateVectorExtension
    rw [h]
    simp [hm]
  · intro hm hext hcf hff
    subst hext hcf hff
    unfold updateVectorExtension
    rw [h]
    simp [hm, reindex, Except.map]

/-- Witness for C4: installed pgvector 0.5.0 with patch target 0.5.1 (delta not
minor-or-major) issues only the upgrade DDL; with minor target 0.7.0 it reindexes
CLIP then face and reports no restart. -/
theorem updateVectorExtension_non_minor_and_pgvector_paths_witness :
    (updateVectorExtension DatabaseExtension.vector DatabaseExtension.vector
        (some ⟨0, 5, 1⟩) (some "0.5.0") (.ok ()) (.ok ()) (.ok ()) (.ok ()) =
      ([upgradeDdl DatabaseExtension.vector (some ⟨0, 5, 1⟩)], .ok ⟨false⟩)) ∧
    (updateVectorExtension DatabaseExtension.vector DatabaseExtension.vector
        (some ⟨0, 7, 0⟩) (some "0.5.0") (.ok ()) (.ok ()) (.ok ()) (.ok ()) =
      ([upgradeDdl DatabaseExtension.vector (some ⟨0, 7, 0⟩),
        reindexStmt VectorIndex.clip, reindexStmt VectorIndex.face], .ok ⟨false⟩)) :=
  ⟨(updateVectorExtension_non_minor_and_pgvector_paths DatabaseExtension.vector
      DatabaseExtension.vector (some ⟨0, 5, 1⟩) (some "0.5.0") ⟨0, 5, 0⟩
      (.ok ()) (.ok ()) (.ok ()) (.ok ()) (by decide)).1 (by decide),
   (updateVectorExtension_non_minor_and_pgvector_paths DatabaseExtension.vector
      DatabaseExtension.vector (some ⟨0, 7, 0⟩) (some "0.5.0") ⟨0, 5, 0⟩
      (.ok ()) (.ok ()) (.ok ()) (.ok ()) (by decide)).2 (by decide) rfl rfl rfl⟩

/-- C5: reindex first attempts the direct rebuild; on failure under the pgvecto.rs
configuration it runs, inside a single transaction, the embedding-column alter to a
plain array type, the alter back to the vector type, and the rebuild retry, with the
retry's error propagated when the retry also fails; under the pgvector configuration
any rebuild failure is re-raised unrecovered. -/
theorem reindex_recovery_under_vectors
    (vectorExt : DatabaseExtension) (index : VectorIndex)
    (first retry : Except DbError Unit) (e e2 : DbError) :
    ((reindex vectorExt index first retry).1.head? = some (reindexStmt index)) ∧
    (reindex vectorExt index (.ok ()) retry = ([reindexStmt index], .ok ())) ∧
    (reindex DatabaseExtension.vectors index (.error e) retry =
      ([reindexStmt index, .transaction (reindexRecoveryOps index)], retry)) ∧
    (reindex DatabaseExtension.vectors index (.error e) (.error e2) =
      ([reindexStmt index, .transaction (reindexRecoveryOps index)], .error e2)) ∧
    (reindex DatabaseExtension.vector index (.error e) retry =
      ([reindexStmt index], .error e)) := by
  refine ⟨?_, rfl, rfl, rfl, rfl⟩
  cases first with
  | ok a => rfl
  | error e3 =>
    by_cases hv : vectorExt = DatabaseExtension.vectors
    · simp [reindex, hv]
    · simp [reindex, hv]

/-- C6: under the pgvecto.rs configuration, shouldReindex returns true exactly when
the status query reports "UPGRADE" or fails with a message carrying the
index-not-existing signature; any other failure of the status query is re-thrown. -/
theorem shouldReindex_true_iff (o : Except DbError (Option String)) :
    (shouldReindex DatabaseExtension.vectors o = .ok true ↔
      o = .ok (some "UPGRADE") ∨
        ∃ e, o = .error e ∧ containsSub e.message "index is not existing" = true) ∧
    (∀ e, o = .error e → containsSub e.message "index is not existing" = false →
      shouldReindex DatabaseExtension.vectors o = .error e) := by
  constructor
  · cases o with
    | ok s =>
      rw [shouldReindex_vectors_ok]
      simp
    | error e =>
      rw [shouldReindex_vectors_error]
      by_cases hc : containsSub e.message "index is not existing" = true
      · rw [if_pos hc]
        simp [hc]
      · rw [if_neg hc]
        simp [hc]
  · intro e he hc
    subst he
    rw [shouldReindex_vectors_error, if_neg]
    rw [hc]
    exact Bool.false_ne_true

/-- Witness for C6: a status of UPGRADE yields true; a failure with the not-existing
message yields true; an unrelated failure is re-thrown. -/
theorem shouldReindex_true_iff_witness :
    shouldReindex DatabaseExtension.vectors (.ok (some "UPGRADE")) = .ok true ∧
    shouldReindex DatabaseExtension.vectors
        (.error (.sqlError "index is not existing")) = .ok true ∧
    shouldReindex DatabaseExtension.vectors (.error (.sqlError "boom")) =
      .error (.sqlError "boom") :=
  ⟨(shouldReindex_true_iff (.ok (some "UPGRADE"))).1.mpr (Or.inl rfl),
   (shouldReindex_true_iff (.error (.sqlError "index is not existing"))).1.mpr
     (Or.inr ⟨.sqlError "index is not existing", rfl, by decide⟩),
   (shouldReindex_true_iff (.error (.sqlError "boom"))).2 (.sqlError "boom") rfl
     (by decide)⟩

/-- C7: when the installed-version lookup reports the extension absent,
updateVectorExtension fails with the not-installed error carrying the extension's
canonical name and issues no statement at all, for every extension, target version,
and reindex outcome. -/
theorem updateVectorExtension_not_installed
    (vectorExt extension : DatabaseExtension) (version : Option Version)
    (cf cr ff fr : Except DbError Unit) :
    updateVectorExtension vectorExt extension version none cf cr ff fr =
      ([], .error (.notInstalled (extName extension))) :=
  rfl

/-- Evaluation lemma: getExtensionVersion on a present extversion string parses it and
applies the 0.1.1 remap. -/
theorem getExtensionVersion_some (s : String) :
    getExtensionVersion (some s) =
      match Version.fromString s with
      | none => .error (.invalidVersionFormat s)
      | some version =>
        if version.isEqual ⟨0, 1, 1⟩ then .ok (some ⟨0, 1, 11⟩)
        else .ok (some version) :=
  rfl

/-- Evaluation lemma: getAvailableExtensionVersion on a present version string returns
the parsed version unchanged. -/
theorem getAvailableExtensionVersion_some (s : String) :
    getAvailableExtensionVersion (some s) =
      match Version.fromString s with
      | none => .error (.invalidVersionFormat s)
      | some version => .ok (some version) :=
  rfl

/-- C8: getExtensionVersion returns absent when the extension is not installed, and
remaps an installed version parsing equal to 0.1.1 to 0.1.11; getAvailableExtensionVersion
returns every parsed version unchanged, so the remap applies only to the installed
version. -/
theorem getExtensionVersion_remaps_installed_only :
    getExtensionVersion none = .ok none ∧
    (∀ s : String, Version.fromString s = some ⟨0, 1, 1⟩ →
      getExtensionVersion (some s) = .ok (some ⟨0, 1, 11⟩)) ∧
    (∀ (s : String) (v : Version), Version.fromString s = some v →
      getAvailableExtensionVersion (some s) = .ok (some v)) := by
  refine ⟨rfl, ?_, ?_⟩
  · intro s hs
    rw [getExtensionVersion_some, hs]
    rfl
  · intro s v hv
    rw [getAvailableExtensionVersion_some, hv]

/-- Witness for C8 at the buggy string itself: installed "0.1.1" is remapped to
0.1.11 while the available-version path returns 0.1.1 unchanged. -/
theorem getExtensionVersion_remaps_installed_only_witness :
    getExtensionVersion (some "0.1.1") = .ok (some ⟨0, 1, 11⟩) ∧
    getAvailableExtensionVersion (some "0.1.1") = .ok (some ⟨0, 1, 1⟩) :=
  ⟨getExtensionVersion_remaps_installed_only.2.1 "0.1.1" (by decide),
   getExtensionVersion_remaps_installed_only.2.2 "0.1.1" ⟨0, 1, 1⟩ (by decide)⟩

/-- C9 counterexample: the claim says every member of the extension enumeration maps
to a canonical name distinct from its enumeration key, but the cube member's canonical
name equals its key "cube". -/
theorem extName_cube_equals_key :
    extName DatabaseExtension.cube = DatabaseExtension.key DatabaseExtension.cube :=
  rfl

/-- C9 amended: only the two vector members map to canonical names distinct from
their enumeration keys (vector to pgvector, vectors to pgvecto.rs); cube and
earthdistance map to names equal to their keys. -/
theorem extName_distinct_only_for_vector_members :
    extName DatabaseExtension.vector ≠ DatabaseExtension.key DatabaseExtension.vector ∧
    extName DatabaseExtension.vectors ≠ DatabaseExtension.key DatabaseExtension.vectors ∧
    extName DatabaseExtension.cube = DatabaseExtension.key DatabaseExtension.cube ∧
    extName DatabaseExtension.earthdistance =
      DatabaseExtension.key DatabaseExtension.earthdistance := by
  refine ⟨by decide, by decide, rfl, rfl⟩

/-- C10: with no target version the delta is never classified minor-or-major, so
updateVectorExtension issues exactly the unversioned upgrade DDL and returns
restartRequired = false — no workaround, repair, or reindex — for every extension and
configuration, whenever the extension is installed. -/
theorem updateVectorExtension_no_version_unversioned_ddl
    (vectorExt extension : DatabaseExtension) (installedResult : Option String)
    (cur : Version) (cf cr ff fr : Except DbError Unit)
    (h : getExtensionVersion installedResult = .ok (some cur)) :
    minorOrMajorDelta cur none = false ∧
    updateVectorExtension vectorExt extension none installedResult cf cr ff fr =
      ([DbOp.q ("ALTER EXTENSION " ++ extension.key ++ " UPDATE") []], .ok ⟨false⟩) := by
  refine ⟨rfl, ?_⟩
  unfold updateVectorExtension
  rw [h]
  simp [minorOrMajorDelta, upgradeDdl]

/-- Witness for C10: installed pgvecto.rs 0.2.0, no target version. -/
theorem updateVectorExtension_no_version_unversioned_ddl_witness :
    minorOrMajorDelta ⟨0, 2, 0⟩ none = false ∧
    updateVectorExtension DatabaseExtension.vectors DatabaseExtension.vectors none
        (some "0.2.0") (.ok ()) (.ok ()) (.ok ()) (.ok ()) =
      ([DbOp.q "ALTER EXTENSION vectors UPDATE" []], .ok ⟨false⟩) :=
  updateVectorExtension_no_version_unversioned_ddl DatabaseExtension.vectors
    DatabaseExtension.vectors (some "0.2.0") ⟨0, 2, 0⟩
    (.ok ()) (.ok ()) (.ok ()) (.ok ()) (by decide)
